import Mathlib

/-!
# Verification of the resilient data-acquisition layer of yahoofinance-mcp

Shallow embedding of `src/app/[transport]/route.ts` (the variant containing
the rate limiter, `fetchWithRetry` and the fetch-based tool handlers, plus
the `getPeriod1Date` helper of the library-based variant).

Conventions:
* JavaScript timestamps (`Date.now()`, in milliseconds) are modelled as `Nat`.
* JavaScript numbers appearing in market data are modelled as `Rat`
  (the claims under verification concern data flow, not IEEE-754 rounding).
* A JavaScript value that may be `undefined` is an outer `Option`; inside the
  parallel arrays an entry that may be `null` is an inner `Option`, so
  `quotes.close?.[i]` has type `Option (Option Rat)`:
  `none` = undefined (array absent or index out of range),
  `some none` = null entry, `some (some v)` = number.
* A thrown-and-not-caught exception is `Except.error`; a normal return is
  `Except.ok`.
* Locale/float string formatting (`toLocaleDateString`, `toFixed`,
  `toLocaleString`) is environment-dependent and is passed in as an opaque
  formatting function parameter; all other string construction is literal.
-/

/-! ## RequestBudget (`RATE_LIMIT`, `requestCount`, `checkRateLimit`) -/

/-- The mutable `requestCount` object: two fixed windows (60 s / 24 h). -/
structure RateState where
  minute : Nat
  day : Nat
  lastMinuteReset : Nat
  lastDayReset : Nat
deriving Repr, DecidableEq

/-- `RATE_LIMIT.perMinute`. -/
def RATE_LIMIT_perMinute : Nat := 20

/-- `RATE_LIMIT.perDay`. -/
def RATE_LIMIT_perDay : Nat := 500

/-- The message of the error thrown by `checkRateLimit`. -/
def rateLimitMsg : String := "Rate limit exceeded. Please try again later."

/-- `checkRateLimit()`: reset each expired window, then reject (throw) if either
window is at capacity, otherwise increment both counters.  The returned state
is the value of `requestCount` after the call (mutations made by the resets
persist even when the call throws). -/
def checkRateLimit (now : Nat) (s : RateState) : Except String Unit × RateState :=
  let s1 := if 60000 < now - s.lastMinuteReset then
    { s with minute := 0, lastMinuteReset := now } else s
  let s2 := if 86400000 < now - s1.lastDayReset then
    { s1 with day := 0, lastDayReset := now } else s1
  if RATE_LIMIT_perMinute ≤ s2.minute ∨ RATE_LIMIT_perDay ≤ s2.day then
    (Except.error rateLimitMsg, s2)
  else
    (Except.ok (), { s2 with minute := s2.minute + 1, day := s2.day + 1 })

/-- The state after `k` successive `checkRateLimit` calls, call `i` made at
time `ts i`. -/
def runChecks (ts : Nat → Nat) (s : RateState) : Nat → RateState
  | 0 => s
  | k + 1 => (checkRateLimit (ts k) (runChecks ts s k)).2

/-! ## Upstream payload shapes (`data.chart?.result?.[0]`) -/

/-- The parallel OHLCV arrays: `result.indicators?.quote?.[0]`.  Each array may
be absent (`undefined`) as a whole; each entry may be `null`. -/
structure QuoteArrays where
  open_ : Option (List (Option Rat))
  high : Option (List (Option Rat))
  low : Option (List (Option Rat))
  close : Option (List (Option Rat))
  volume : Option (List (Option Rat))
deriving Repr, DecidableEq

/-- The metadata fields of `result.meta` that the history handler reads. -/
structure ChartMeta where
  currency : Option String
  firstTradeDate : Option Nat
  regularMarketTime : Option Nat
deriving Repr, DecidableEq

/-- The chart result object.  `meta`/`timestamp`/`quote` may each be absent. -/
structure ChartResult where
  meta : Option ChartMeta
  timestamp : Option (List Nat)
  quote : Option QuoteArrays
deriving Repr, DecidableEq

/-- An HTTP response as the handlers see it: `status`, `ok`, `statusText`, and
the parsed body's `data.chart?.result?.[0]` (`none` when that path is absent). -/
structure HttpResponse where
  status : Nat
  ok : Bool
  statusText : String
  payload : Option ChartResult
deriving Repr, DecidableEq

/-! ## ResilientFetcher (`fetchWithRetry`) -/

/-- What one `fetch(url, options)` call does: return a response or raise a
network-level fault.  The transport is a function of the attempt index. -/
inductive TransportOutcome where
  | resp (r : HttpResponse)
  | fault (msg : String)
deriving Repr, DecidableEq

/-- Observable outcome of a whole `fetchWithRetry` call: the returned response
or thrown error, the number of HTTP attempts made, and the cumulative
`setTimeout` sleep in milliseconds. -/
structure FetchFinal where
  result : Except String HttpResponse
  attempts : Nat
  sleepMs : Nat

/-- How one attempt's outcome updates the `lastError` variable: a network
fault is recorded, a response (even a 429) is not. -/
def updateErr : TransportOutcome → Option String → Option String
  | TransportOutcome.fault m, _ => some m
  | _, le => le

/-- Cumulative backoff sleep of `fuel` retried attempts starting at attempt
index `retries`: each waits `2^attempt * 1000` ms. -/
def sleepSum : Nat → Nat → Nat
  | _, 0 => 0
  | retries, fuel + 1 => 2 ^ retries * 1000 + sleepSum (retries + 1) fuel

/-- The value of `lastError` after `a` retried attempts starting at attempt
index `retries` with current value `le`. -/
def recordedError (t : Nat → TransportOutcome) : Nat → Nat → Option String → Option String
  | 0, _, le => le
  | a + 1, retries, le => recordedError t a (retries + 1) (updateErr (t retries) le)

/-- Whether an attempt outcome causes a retry (429 response or network fault). -/
def retryable : TransportOutcome → Bool
  | TransportOutcome.resp r => r.status == 429
  | TransportOutcome.fault _ => true

/-- The `while (retries < maxRetries)` loop of `fetchWithRetry`, with
`fuel = maxRetries - retries` making the recursion structural.  A 429 response
sleeps `2^retries * 1000` ms and retries without recording `lastError`; any
other response is returned immediately; a fault records `lastError`, sleeps
the same backoff and retries.  On loop exit:
`throw lastError || new Error("Maximum retries exceeded")`. -/
def fetchGo (t : Nat → TransportOutcome) :
    Nat → Nat → Option String → Nat → Nat → FetchFinal
  | 0, _retries, lastError, attempts, sleepMs =>
      ⟨Except.error (lastError.getD "Maximum retries exceeded"), attempts, sleepMs⟩
  | fuel + 1, retries, lastError, attempts, sleepMs =>
      match t retries with
      | TransportOutcome.resp r =>
          if r.status = 429 then
            fetchGo t fuel (retries + 1) lastError (attempts + 1)
              (sleepMs + 2 ^ retries * 1000)
          else ⟨Except.ok r, attempts + 1, sleepMs⟩
      | TransportOutcome.fault msg =>
          fetchGo t fuel (retries + 1) (some msg) (attempts + 1)
            (sleepMs + 2 ^ retries * 1000)

/-- `fetchWithRetry(url, options, maxRetries = 3)` over an abstract transport. -/
def fetchWithRetry (t : Nat → TransportOutcome) (maxRetries : Nat := 3) : FetchFinal :=
  fetchGo t maxRetries 0 none 0 0

/-- A transport answering 429 on every attempt (witness input). -/
def t429 : Nat → TransportOutcome :=
  fun _ => TransportOutcome.resp ⟨429, false, "Too Many Requests", none⟩

/-- A transport faulting on attempt 0 and answering 429 afterwards (witness
input). -/
def tMixed : Nat → TransportOutcome :=
  fun i => if i = 0 then TransportOutcome.fault "netdown"
    else TransportOutcome.resp ⟨429, false, "Too Many Requests", none⟩

/-- A transport answering 429 on attempt 0 and 200 afterwards (witness input). -/
def tOk : Nat → TransportOutcome :=
  fun i => if i = 0 then TransportOutcome.resp ⟨429, false, "Too Many Requests", none⟩
    else TransportOutcome.resp ⟨200, true, "OK", none⟩

/-! ## Period validation and period-to-date mapping -/

/-- `validPeriods` of the history handler. -/
def validPeriods : List String :=
  ["1d", "5d", "1mo", "3mo", "6mo", "1y", "2y", "5y", "10y", "ytd", "max"]

/-- `validIntervals` of the history handler. -/
def validIntervals : List String :=
  ["1m", "2m", "5m", "15m", "30m", "60m", "90m", "1h", "1d", "5d", "1wk", "1mo", "3mo"]

/-- The `periods` record literal inside `getPeriod1Date` (values in
milliseconds); a key lookup that misses yields `undefined` (`none`). -/
def periodsRecord (p : String) : Option Nat :=
  if p = "1d" then some 86400000
  else if p = "5d" then some (5 * 86400000)
  else if p = "1mo" then some (30 * 86400000)
  else if p = "3mo" then some (90 * 86400000)
  else if p = "6mo" then some (180 * 86400000)
  else if p = "1y" then some (365 * 86400000)
  else if p = "2y" then some (2 * 365 * 86400000)
  else if p = "5y" then some (5 * 365 * 86400000)
  else if p = "10y" then some (10 * 365 * 86400000)
  else none

/-- `getPeriod1Date(period)` of the library-based variant (defined identically
in its history and chart tools): returns a `Date`, modelled as milliseconds
since the epoch (`Int`, as `Date.now() - d` may be negative).  `nowMs` models
`Date.now()` and `janFirstMs` models
`new Date(new Date().getFullYear(), 0, 1).getTime()`.
`periods[period] || 30 * 86400000` is the `undefined`-or-value fallback (every
stored value is nonzero, hence truthy). -/
def getPeriod1Date (nowMs janFirstMs : Int) (period : String) : Int :=
  if period = "ytd" then janFirstMs
  else if period = "max" then 0
  else nowMs - Int.ofNat ((periodsRecord period).getD (30 * 86400000))

/-- The `switch (period)` computing `period1` in the fetch-based history
handler, in Unix seconds: `period2 = Math.floor(Date.now() / 1000)` and
`janFirstSec` models `Math.floor(startOfYear.getTime() / 1000)`. -/
def histPeriod1 (period2 janFirstSec : Int) (period : String) : Int :=
  if period = "1d" then period2 - 86400
  else if period = "5d" then period2 - 5 * 86400
  else if period = "1mo" then period2 - 30 * 86400
  else if period = "3mo" then period2 - 90 * 86400
  else if period = "6mo" then period2 - 180 * 86400
  else if period = "1y" then period2 - 365 * 86400
  else if period = "2y" then period2 - 2 * 365 * 86400
  else if period = "5y" then period2 - 5 * 365 * 86400
  else if period = "10y" then period2 - 10 * 365 * 86400
  else if period = "ytd" then janFirstSec
  else if period = "max" then 0
  else period2 - 30 * 86400

/-! ## Series sampling, row rendering and the price-change summary -/

/-- `arr?.[i]` on a possibly-absent parallel array:
`none` = `undefined` (absent array or out-of-range index),
`some none` = a `null` entry, `some (some v)` = a number. -/
def jsIndex (arr : Option (List (Option Rat))) (i : Nat) : Option (Option Rat) :=
  match arr with
  | none => none
  | some l => l.get? i

/-- `const step = Math.max(1, Math.floor(timestamps.length / maxPoints))` with
`maxPoints = 10`. -/
def sampleStep (len : Nat) : Nat := max 1 (len / 10)

/-- The loop `for (let i = 0; i < len; i += step)`, fuel-indexed to make the
recursion structural (fuel `len` suffices whenever `1 ≤ step`). -/
def sampleIdxGo (len step : Nat) : Nat → Nat → List Nat
  | 0, _ => []
  | fuel + 1, i => if i < len then i :: sampleIdxGo len step fuel (i + step) else []

/-- The sequence of row indices the history table prints. -/
def sampledIndices (len : Nat) : List Nat :=
  sampleIdxGo len (sampleStep len) len 0

/-- The trailing price-change computation: executed when `timestamps.length >
0` and the close array has entries (`!== undefined`) at indices 0 and
`len - 1`.  A `null` close passes that check; in the arithmetic JS coerces
`null` to 0, modelled by `Option.getD 0` (JS produces non-finite values when
the first close is `null` or `0`; their rendering is outside this model, and
the value-level claims below are stated for numeric closes). -/
def changeNumbers (closes : Option (List (Option Rat))) (len : Nat) :
    Option (Rat × Rat) :=
  if 0 < len then
    match jsIndex closes 0, jsIndex closes (len - 1) with
    | some fc, some lc =>
        some (lc.getD 0 - fc.getD 0, (lc.getD 0 - fc.getD 0) / fc.getD 0 * 100)
    | _, _ => none
  else none

/-- `\nPrice Change: $CH (PC%)` when the computation above ran, else nothing. -/
def changeSummary (fmtFix : Rat → String) (closes : Option (List (Option Rat)))
    (len : Nat) : String :=
  match changeNumbers closes len with
  | some (c, p) => "\nPrice Change: $" ++ (fmtFix c ++ (" (" ++ (fmtFix p ++ "%)")))
  | none => ""

/-- `String.prototype.padEnd` with spaces. -/
def padEnd (s : String) (n : Nat) : String :=
  s ++ String.mk (List.replicate (n - s.length) ' ')

/-- `quotes.F?.[i]?.toFixed(2) || 'N/A'` (`toFixed` never yields a falsy
string, so only `undefined`/`null` fall back). -/
def numField (fmtFix : Rat → String) (arr : Option (List (Option Rat)))
    (i : Nat) : String :=
  match jsIndex arr i with
  | some (some v) => fmtFix v
  | _ => "N/A"

/-- `quotes.volume?.[i]?.toLocaleString() || 'N/A'`. -/
def volField (fmtVol : Rat → String) (arr : Option (List (Option Rat)))
    (i : Nat) : String :=
  match jsIndex arr i with
  | some (some v) => fmtVol v
  | _ => "N/A"

/-- One table row of the history output. -/
def renderRow (fmtDate : Nat → String) (fmtFix : Rat → String)
    (fmtVol : Rat → String) (ts : List Nat) (q : QuoteArrays) (i : Nat) : String :=
  padEnd (fmtDate (ts.getD i 0)) 11 ++
    (" | $" ++ (padEnd (numField fmtFix q.open_ i) 8 ++
      (" | $" ++ (padEnd (numField fmtFix q.high i) 8 ++
        (" | $" ++ (padEnd (numField fmtFix q.low i) 8 ++
          (" | $" ++ (padEnd (numField fmtFix q.close i) 8 ++
            (" | " ++ (volField fmtVol q.volume i ++ "\n"))))))))))

/-- `if (meta.firstTradeDate && meta.regularMarketTime)` — an absent `meta`
yields `undefined` fields (falsy), and a numeric field is falsy exactly when
it is 0. -/
def tradingPeriodLine (fmtDate : Nat → String) (meta : Option ChartMeta) : String :=
  match meta with
  | none => ""
  | some m =>
    match m.firstTradeDate, m.regularMarketTime with
    | some a, some b =>
      if a ≠ 0 ∧ b ≠ 0 then
        "Trading Period: " ++ (fmtDate a ++ (" to " ++ (fmtDate b ++ "\n\n")))
      else ""
    | _, _ => ""

/-- `quotes = result.indicators?.quote?.[0] || {}` fallback object. -/
def emptyQuoteArrays : QuoteArrays := ⟨none, none, none, none, none⟩

/-- The full `output` string of the history handler's success path. -/
def historyOutput (fmtDate : Nat → String) (fmtFix : Rat → String)
    (fmtVol : Rat → String) (symbol period interval : String)
    (res : ChartResult) : String :=
  let ts := res.timestamp.getD []
  let q := res.quote.getD emptyQuoteArrays
  "Historical data for " ++
    (symbol ++ (" (" ++ (period ++ (", " ++ (interval ++ (" intervals)\n" ++
      ("Currency: " ++ ((res.meta.bind ChartMeta.currency).getD "USD" ++ ("\n" ++
        (tradingPeriodLine fmtDate res.meta ++
          ("Date | Open | High | Low | Close | Volume\n" ++
            ("-----------|----------|----------|----------|----------|------------\n" ++
              (String.join
                  ((sampledIndices ts.length).map (renderRow fmtDate fmtFix fmtVol ts q)) ++
                changeSummary fmtFix q.close ts.length)))))))))))))

/-! ## The per-index record extraction (SeriesNormalizer view) -/

/-- One OHLCV record: the values the handler reads positionally at index `i`.
Both a `null` entry and an out-of-range/absent array read render as the
unknown token, so both collapse to `none` here (`Option.join`). -/
structure OHLCVRecord where
  timestamp : Nat
  open_ : Option Rat
  high : Option Rat
  low : Option Rat
  close : Option Rat
  volume : Option Rat
deriving Repr, DecidableEq

/-- The record the handler's row loop reads at index `i`. -/
def mkRecord (res : ChartResult) (i : Nat) : OHLCVRecord :=
  let ts := res.timestamp.getD []
  let q := res.quote.getD emptyQuoteArrays
  ⟨ts.getD i 0, (jsIndex q.open_ i).join, (jsIndex q.high i).join,
    (jsIndex q.low i).join, (jsIndex q.close i).join, (jsIndex q.volume i).join⟩

/-- The ordered record sequence of a payload: one record per timestamp. -/
def normalizeRecords (res : ChartResult) : List OHLCVRecord :=
  (List.range (res.timestamp.getD []).length).map (mkRecord res)

/-! ## Tool handlers (fetch-based variant) -/

/-- What a whole tool invocation produces: the reply (`Except.error` = an
exception escaped to the caller), the final `requestCount`, and whether the
network fetch was reached. -/
structure HandlerResult where
  response : Except String String
  state : RateState
  fetched : Bool

/-- Message of the error thrown on an invalid `period`. -/
def invalidPeriodMsg (period : String) : String :=
  "Invalid period: " ++
    (period ++ (". Valid periods are: " ++ String.intercalate ", " validPeriods))

/-- Message of the error thrown on an invalid `interval`. -/
def invalidIntervalMsg (interval : String) : String :=
  "Invalid interval: " ++
    (interval ++ (". Valid intervals are: " ++ String.intercalate ", " validIntervals))

/-- Message of the error thrown on a non-OK response status. -/
def apiErrorMsg (r : HttpResponse) : String :=
  "API error: " ++ (toString r.status ++ (" " ++ r.statusText))

/-- The `yahoo_stock_history` handler.  `checkRateLimit()` runs *before* the
`try` block, so its throw escapes; every throw inside the `try` is caught and
turned into `Error: <message>` text.  `janFirstSec` models the `ytd` start of
year; the transport `t` stands for `fetch` inside `fetchWithRetry`. -/
def historyHandler (s : RateState) (now janFirstSec : Nat)
    (t : Nat → TransportOutcome) (fmtDate : Nat → String) (fmtFix : Rat → String)
    (fmtVol : Rat → String) (symbol period interval : String) : HandlerResult :=
  match checkRateLimit now s with
  | (Except.error e, s1) => ⟨Except.error e, s1, false⟩
  | (Except.ok _, s1) =>
    if period ∉ validPeriods then
      ⟨Except.ok ("Error: " ++ invalidPeriodMsg period), s1, false⟩
    else if interval ∉ validIntervals then
      ⟨Except.ok ("Error: " ++ invalidIntervalMsg interval), s1, false⟩
    else
      let _period1 := histPeriod1 (Int.ofNat (now / 1000)) (Int.ofNat janFirstSec) period
      match (fetchWithRetry t 3).result with
      | Except.error e => ⟨Except.ok ("Error: " ++ e), s1, true⟩
      | Except.ok r =>
        if r.ok = false then
          ⟨Except.ok ("Error: " ++ apiErrorMsg r), s1, true⟩
        else
          match r.payload with
          | none =>
            ⟨Except.ok ("No historical data found for symbol: " ++ symbol), s1, true⟩
          | some res =>
            ⟨Except.ok (historyOutput fmtDate fmtFix fmtVol symbol period interval res),
              s1, true⟩

/-- The `yahoo_stock_quote` handler, same boundary structure: budget check
before the `try`, everything else inside it.  The `quoteData` JSON rendering
of the success path is abstracted as `renderQuote` (no claim inspects it). -/
def quoteHandler (s : RateState) (now : Nat) (t : Nat → TransportOutcome)
    (renderQuote : ChartResult → String) (symbol : String) : HandlerResult :=
  match checkRateLimit now s with
  | (Except.error e, s1) => ⟨Except.error e, s1, false⟩
  | (Except.ok _, s1) =>
    match (fetchWithRetry t 3).result with
    | Except.error e => ⟨Except.ok ("Error: " ++ e), s1, true⟩
    | Except.ok r =>
      if r.ok = false then
        ⟨Except.ok ("Error: " ++ apiErrorMsg r), s1, true⟩
      else
        match r.payload with
        | none => ⟨Except.ok ("No data found for symbol: " ++ symbol), s1, true⟩
        | some res => ⟨Except.ok (renderQuote res), s1, true⟩

/-- A transport faulting with "boom" on every attempt (witness input). -/
def tFault : Nat → TransportOutcome := fun _ => TransportOutcome.fault "boom"

/-- A chart result that is present but has an empty timestamp array. -/
def emptyTsPayload : ChartResult := ⟨none, some [], none⟩

/-- A two-point chart result with full OHLCV arrays (witness input). -/
def samplePayload : ChartResult :=
  ⟨none, some [100, 200],
    some ⟨some [some 1, some 2], some [some 3, some 4], some [some 1, some 2],
      some [some 2, some 4], some [some 10, some 20]⟩⟩

/-- A transport answering 200/OK with `emptyTsPayload` (witness input). -/
def tFetch200 : Nat → TransportOutcome :=
  fun _ => TransportOutcome.resp ⟨200, true, "OK", some emptyTsPayload⟩

/-- A transport answering 200/OK with `samplePayload` (witness input). -/
def tFetchSample : Nat → TransportOutcome :=
  fun _ => TransportOutcome.resp ⟨200, true, "OK", some samplePayload⟩

/-- Within both windows and below both capacities, a call is accepted and
increments both counters, touching neither window start. -/
lemma checkRateLimit_accept (now : Nat) (s : RateState)
    (hm : now - s.lastMinuteReset ≤ 60000) (hd : now - s.lastDayReset ≤ 86400000)
    (hcm : s.minute < RATE_LIMIT_perMinute) (hcd : s.day < RATE_LIMIT_perDay) :
    checkRateLimit now s =
      (Except.ok (), { s with minute := s.minute + 1, day := s.day + 1 }) := by
  have h1 : ¬ 60000 < now - s.lastMinuteReset := by omega
  have h2 : ¬ 86400000 < now - s.lastDayReset := by omega
  have h3 : ¬ (RATE_LIMIT_perMinute ≤ s.minute ∨ RATE_LIMIT_perDay ≤ s.day) := by omega
  simp only [checkRateLimit, if_neg h1, if_neg h2, if_neg h3]

/-- Within both windows and at capacity of either window, a call is rejected
and changes nothing. -/
lemma checkRateLimit_reject (now : Nat) (s : RateState)
    (hm : now - s.lastMinuteReset ≤ 60000) (hd : now - s.lastDayReset ≤ 86400000)
    (hc : RATE_LIMIT_perMinute ≤ s.minute ∨ RATE_LIMIT_perDay ≤ s.day) :
    checkRateLimit now s = (Except.error rateLimitMsg, s) := by
  have h1 : ¬ 60000 < now - s.lastMinuteReset := by omega
  have h2 : ¬ 86400000 < now - s.lastDayReset := by omega
  simp only [checkRateLimit, if_neg h1, if_neg h2, if_pos hc]

/-- Closed form for a run of checks that starts from a fresh window and stays
inside both windows: both counters saturate at `RATE_LIMIT_perMinute`. -/
lemma runChecks_closed (a b : Nat) (ts : Nat → Nat)
    (h1 : ∀ i, ts i - a ≤ 60000) (h2 : ∀ i, ts i - b ≤ 86400000) :
    ∀ k, runChecks ts ⟨0, 0, a, b⟩ k =
      ⟨min k RATE_LIMIT_perMinute, min k RATE_LIMIT_perMinute, a, b⟩ := by
  intro k
  induction k with
  | zero => simp [runChecks]
  | succ k ih =>
    rw [runChecks, ih]
    by_cases hk : k < RATE_LIMIT_perMinute
    · rw [checkRateLimit_accept (ts k) _ (h1 k) (h2 k)
        (by simp only; omega)
        (by simp only [RATE_LIMIT_perMinute, RATE_LIMIT_perDay] at *; omega)]
      simp only [RateState.mk.injEq, and_true]
      omega
    · rw [checkRateLimit_reject (ts k) _ (h1 k) (h2 k) (Or.inl (by simp only; omega))]
      simp only [RateState.mk.injEq, and_true]
      omega

/-- Claim C2: starting from a fresh budget window, for any sequence of
`checkRateLimit` calls that all happen within the same 60-second minute window
(and within the 24-hour day window), the first `RATE_LIMIT_perMinute = 20`
calls are accepted and each increments both counters by exactly 1, and every
further call is rejected with the rate-limit error, leaving both counters and
both window-start timestamps unchanged. -/
theorem c2_fixed_window_budget (a b : Nat) (ts : Nat → Nat)
    (h1 : ∀ i, ts i - a ≤ 60000) (h2 : ∀ i, ts i - b ≤ 86400000) (k : Nat) :
    (k < RATE_LIMIT_perMinute →
      (checkRateLimit (ts k) (runChecks ts ⟨0, 0, a, b⟩ k)).1 = Except.ok () ∧
      runChecks ts ⟨0, 0, a, b⟩ (k + 1) = ⟨k + 1, k + 1, a, b⟩) ∧
    (RATE_LIMIT_perMinute ≤ k →
      (checkRateLimit (ts k) (runChecks ts ⟨0, 0, a, b⟩ k)).1 = Except.error rateLimitMsg ∧
      runChecks ts ⟨0, 0, a, b⟩ (k + 1) = runChecks ts ⟨0, 0, a, b⟩ k) := by
  have hrun := runChecks_closed a b ts h1 h2 k
  have hnext := runChecks_closed a b ts h1 h2 (k + 1)
  constructor
  · intro hk
    rw [hrun, checkRateLimit_accept (ts k) _ (h1 k) (h2 k)
      (by simp only; omega)
      (by simp only [RATE_LIMIT_perMinute, RATE_LIMIT_perDay] at *; omega)]
    refine ⟨rfl, ?_⟩
    rw [hnext]
    simp only [RateState.mk.injEq, and_true]
    omega
  · intro hk
    rw [hrun, checkRateLimit_reject (ts k) _ (h1 k) (h2 k)
      (Or.inl (by simp only; omega))]
    refine ⟨rfl, ?_⟩
    rw [hnext]
    simp only [RateState.mk.injEq, and_true]
    omega

/-- Witness for C2 at a concrete run: call 3 of a fresh window is accepted and
the counters reach 4. -/
theorem c2_fixed_window_budget_instance :
    (checkRateLimit 0 (runChecks (fun _ => 0) ⟨0, 0, 0, 0⟩ 3)).1 = Except.ok () ∧
    runChecks (fun _ => 0) ⟨0, 0, 0, 0⟩ 4 = ⟨4, 4, 0, 0⟩ :=
  (c2_fixed_window_budget 0 0 (fun _ => 0) (fun _ => by simp) (fun _ => by simp) 3).1
    (by norm_num [RATE_LIMIT_perMinute])

/-- Claim C3 (amended): a call made *strictly more than* 60 s after the minute
window start, while the minute window is full and the day count is below the
day capacity, resets the minute count, advances the minute window start to the
call time, and accepts the call (leaving the minute counter at 1). -/
theorem c3_minute_window_reset (s : RateState) (t : Nat)
    (_hfull : RATE_LIMIT_perMinute ≤ s.minute) (hday : s.day < RATE_LIMIT_perDay)
    (helapsed : 60000 < t - s.lastMinuteReset) :
    (checkRateLimit t s).1 = Except.ok () ∧
    (checkRateLimit t s).2.minute = 1 ∧
    (checkRateLimit t s).2.lastMinuteReset = t := by
  have hpm : 0 < RATE_LIMIT_perMinute := by norm_num [RATE_LIMIT_perMinute]
  by_cases hd : 86400000 < t - s.lastDayReset
  · have : checkRateLimit t s =
        (Except.ok (), ⟨1, 1, t, t⟩) := by
      simp only [checkRateLimit, if_pos helapsed]
      rw [if_pos (show 86400000 < t -
        (RateState.mk 0 s.day t s.lastDayReset).lastDayReset from hd)]
      rw [if_neg (by simp only; omega)]
    rw [this]
    exact ⟨rfl, rfl, rfl⟩
  · have : checkRateLimit t s =
        (Except.ok (), ⟨1, s.day + 1, t, s.lastDayReset⟩) := by
      simp only [checkRateLimit, if_pos helapsed]
      rw [if_neg (show ¬ 86400000 < t -
        (RateState.mk 0 s.day t s.lastDayReset).lastDayReset from hd)]
      rw [if_neg (by simp only; omega)]
    rw [this]
    exact ⟨rfl, rfl, rfl⟩

/-- Witness for C3 at a concrete input: a full minute window whose start was
60001 ms ago is reset and the call accepted. -/
theorem c3_minute_window_reset_instance :
    (checkRateLimit 60001 ⟨20, 20, 0, 0⟩).1 = Except.ok () ∧
    (checkRateLimit 60001 ⟨20, 20, 0, 0⟩).2.minute = 1 ∧
    (checkRateLimit 60001 ⟨20, 20, 0, 0⟩).2.lastMinuteReset = 60001 :=
  c3_minute_window_reset ⟨20, 20, 0, 0⟩ 60001
    (by norm_num [RATE_LIMIT_perMinute]) (by norm_num [RATE_LIMIT_perDay]) (by norm_num)

/-- Counterexample to C3 as stated: at exactly 60 s (60000 ms ≥ 60 s) after
the window start the reset condition `now - lastMinuteReset > 60000` is false,
so a full minute window is *not* reset and the call is rejected, contradicting
"a call made ≥ 60 s after the window start resets and accepts". -/
theorem c3_exact_boundary_counterexample :
    60000 - (0 : Nat) ≥ 60000 ∧
    RATE_LIMIT_perMinute ≤ 20 ∧
    checkRateLimit 60000 ⟨20, 20, 0, 0⟩ = (Except.error rateLimitMsg, ⟨20, 20, 0, 0⟩) := by
  refine ⟨by norm_num, by norm_num [RATE_LIMIT_perMinute], ?_⟩
  rfl

/-- A run of the loop over a retryable prefix of `a` attempts advances the
attempt index, accumulates the backoff sleeps, and threads `lastError`. -/
lemma fetchGo_retryable_run (t : Nat → TransportOutcome) :
    ∀ (a fuel retries : Nat) (le : Option String) (att sl : Nat),
      a ≤ fuel →
      (∀ i, i < a → retryable (t (retries + i)) = true) →
      fetchGo t fuel retries le att sl =
        fetchGo t (fuel - a) (retries + a) (recordedError t a retries le)
          (att + a) (sl + sleepSum retries a) := by
  intro a
  induction a with
  | zero =>
    intro fuel retries le att sl _ _
    simp [recordedError, sleepSum]
  | succ a ih =>
    intro fuel retries le att sl hle hretry
    obtain ⟨fuel, rfl⟩ : ∃ f, fuel = f + 1 := ⟨fuel - 1, by omega⟩
    have h0 : retryable (t retries) = true := by
      have := hretry 0 (Nat.succ_pos a)
      simpa using this
    have step : fetchGo t (fuel + 1) retries le att sl =
        fetchGo t fuel (retries + 1) (updateErr (t retries) le) (att + 1)
          (sl + 2 ^ retries * 1000) := by
      cases ht : t retries with
      | resp r =>
        have hs : r.status = 429 := by
          rw [ht] at h0
          simpa [retryable] using h0
        simp [fetchGo, ht, hs, updateErr]
      | fault m =>
        simp [fetchGo, ht, updateErr]
    rw [step, ih fuel (retries + 1) _ (att + 1) _ (by omega)
      (fun i hi => by
        have e : retries + 1 + i = retries + (i + 1) := by omega
        rw [e]
        exact hretry (i + 1) (by omega))]
    have e1 : fuel + 1 - (a + 1) = fuel - a := by omega
    have e2 : retries + (a + 1) = retries + 1 + a := by omega
    have e3 : att + (a + 1) = att + 1 + a := by omega
    have e4 : sl + sleepSum retries (a + 1) =
        sl + 2 ^ retries * 1000 + sleepSum (retries + 1) a := by
      have d : sleepSum retries (a + 1) =
          2 ^ retries * 1000 + sleepSum (retries + 1) a := rfl
      rw [d]
      omega
    rw [e1, e2, e3, e4]
    rfl

/-- When every attempt within the fuel is retryable, the loop exhausts: it
fails with the recorded error (or the generic message), makes `fuel` attempts
and sleeps after each of them. -/
lemma fetchGo_exhaust (t : Nat → TransportOutcome) (fuel retries : Nat)
    (le : Option String) (att sl : Nat)
    (h : ∀ i, i < fuel → retryable (t (retries + i)) = true) :
    fetchGo t fuel retries le att sl =
      ⟨Except.error ((recordedError t fuel retries le).getD "Maximum retries exceeded"),
        att + fuel, sl + sleepSum retries fuel⟩ := by
  rw [fetchGo_retryable_run t fuel fuel retries le att sl le_rfl h]
  simp [fetchGo]

/-- `lastError` is untouched by attempts that are not network faults. -/
lemma recordedError_no_fault (t : Nat → TransportOutcome) :
    ∀ (a retries : Nat) (le : Option String),
      (∀ i, i < a → ∀ m, t (retries + i) ≠ TransportOutcome.fault m) →
      recordedError t a retries le = le := by
  intro a
  induction a with
  | zero => intro retries le _; rfl
  | succ a ih =>
    intro retries le h
    have d : recordedError t (a + 1) retries le =
        recordedError t a (retries + 1) (updateErr (t retries) le) := rfl
    have h0 : updateErr (t retries) le = le := by
      cases ht : t retries with
      | resp r => simp [updateErr]
      | fault m =>
        exact absurd ht (by have := h 0 (Nat.succ_pos a); simpa using this m)
    rw [d, h0]
    exact ih (retries + 1) le (fun i hi m => by
      have e : retries + 1 + i = retries + (i + 1) := by omega
      rw [e]
      exact h (i + 1) (by omega) m)

/-- Splitting a `lastError` evolution into two runs. -/
lemma recordedError_split (t : Nat → TransportOutcome) :
    ∀ (a b retries : Nat) (le : Option String),
      recordedError t (a + b) retries le =
        recordedError t b (retries + a) (recordedError t a retries le) := by
  intro a
  induction a with
  | zero => intro b retries le; simp [recordedError]
  | succ a ih =>
    intro b retries le
    have e : a + 1 + b = (a + b) + 1 := by omega
    rw [e]
    have d1 : recordedError t ((a + b) + 1) retries le
        = recordedError t (a + b) (retries + 1) (updateErr (t retries) le) := rfl
    have d2 : recordedError t (a + 1) retries le
        = recordedError t a (retries + 1) (updateErr (t retries) le) := rfl
    rw [d1, ih b (retries + 1) _, d2]
    have e2 : retries + 1 + a = retries + (a + 1) := by omega
    rw [e2]

/-- Claim C4: against a transport that raises a network fault on every attempt,
`fetchWithRetry` with `maxRetries = 3` makes exactly 3 attempts, fails with the
last recorded error (the fault of the 3rd attempt), and sleeps 1+2+4 = 7
seconds in total, which is within the claimed 3 s to 7 s bounds. -/
theorem c4_always_faulting_transport (t : Nat → TransportOutcome) (msgs : Nat → String)
    (h : ∀ i, t i = TransportOutcome.fault (msgs i)) :
    (fetchWithRetry t 3).attempts = 3 ∧
    (fetchWithRetry t 3).result = Except.error (msgs 2) ∧
    (fetchWithRetry t 3).sleepMs = 7000 ∧
    3000 ≤ (fetchWithRetry t 3).sleepMs ∧ (fetchWithRetry t 3).sleepMs ≤ 7000 := by
  have key : fetchWithRetry t 3 = ⟨Except.error (msgs 2), 3, 7000⟩ := by
    show fetchGo t 3 0 none 0 0 = _
    rw [show (3 : Nat) = 2 + 1 from rfl]
    rw [show fetchGo t (2 + 1) 0 none 0 0 =
      fetchGo t 2 1 (some (msgs 0)) 1 (0 + 2 ^ 0 * 1000) from by simp [fetchGo, h 0]]
    rw [show (2 : Nat) = 1 + 1 from rfl]
    rw [show fetchGo t (1 + 1) 1 (some (msgs 0)) 1 (0 + 2 ^ 0 * 1000) =
      fetchGo t 1 2 (some (msgs 1)) 2 (0 + 2 ^ 0 * 1000 + 2 ^ 1 * 1000) from by
        simp [fetchGo, h 1]]
    rw [show (1 : Nat) = 0 + 1 from rfl]
    rw [show fetchGo t (0 + 1) 2 (some (msgs 1)) 2 (0 + 2 ^ 0 * 1000 + 2 ^ 1 * 1000) =
      fetchGo t 0 3 (some (msgs 2)) 3
        (0 + 2 ^ 0 * 1000 + 2 ^ 1 * 1000 + 2 ^ 2 * 1000) from by simp [fetchGo, h 2]]
    simp [fetchGo]
  rw [key]
  refine ⟨rfl, rfl, by norm_num, by norm_num, by norm_num⟩

/-- Witness for C4: a concrete transport faulting with "boom" on every attempt. -/
theorem c4_always_faulting_transport_instance :
    (fetchWithRetry (fun _ => TransportOutcome.fault "boom") 3).attempts = 3 ∧
    (fetchWithRetry (fun _ => TransportOutcome.fault "boom") 3).result =
      Except.error "boom" ∧
    (fetchWithRetry (fun _ => TransportOutcome.fault "boom") 3).sleepMs = 7000 ∧
    3000 ≤ (fetchWithRetry (fun _ => TransportOutcome.fault "boom") 3).sleepMs ∧
    (fetchWithRetry (fun _ => TransportOutcome.fault "boom") 3).sleepMs ≤ 7000 :=
  c4_always_faulting_transport (fun _ => TransportOutcome.fault "boom")
    (fun _ => "boom") (fun _ => rfl)

/-- Claim C5: (1) if every attempt yields a 429 response, the 429s are retried
with the `2^attempt` backoff, never recorded as `lastError`, and exhaustion
fails with the generic "Maximum retries exceeded" message; (2) if some attempt
raised a network fault (and the last such fault is at attempt `j`), exhaustion
fails with that recorded error instead; (3) a response whose status is not 429
is returned immediately, without further attempts. -/
theorem c5_retry_policy :
    (∀ (t : Nat → TransportOutcome) (n : Nat),
      (∀ i, i < n → ∃ r, t i = TransportOutcome.resp r ∧ r.status = 429) →
      fetchWithRetry t n =
        ⟨Except.error "Maximum retries exceeded", n, sleepSum 0 n⟩) ∧
    (∀ (t : Nat → TransportOutcome) (n j : Nat) (m : String),
      j < n → t j = TransportOutcome.fault m →
      (∀ i, i < n → retryable (t i) = true) →
      (∀ i, j < i → i < n → ∀ m2, t i ≠ TransportOutcome.fault m2) →
      fetchWithRetry t n = ⟨Except.error m, n, sleepSum 0 n⟩) ∧
    (∀ (t : Nat → TransportOutcome) (n k : Nat) (r : HttpResponse),
      k < n → (∀ i, i < k → retryable (t i) = true) →
      t k = TransportOutcome.resp r → r.status ≠ 429 →
      fetchWithRetry t n = ⟨Except.ok r, k + 1, sleepSum 0 k⟩) := by
  refine ⟨?_, ?_, ?_⟩
  · intro t n h
    have hretry : ∀ i, i < n → retryable (t (0 + i)) = true := fun i hi => by
      obtain ⟨r, ht, hs⟩ := h i hi
      simp [retryable, Nat.zero_add, ht, hs]
    have hrec : recordedError t n 0 none = none :=
      recordedError_no_fault t n 0 none (fun i hi m => by
        obtain ⟨r, ht, _⟩ := h i (by simpa using hi)
        simp [Nat.zero_add, ht])
    have key := fetchGo_exhaust t n 0 none 0 0 hretry
    show fetchGo t n 0 none 0 0 = _
    rw [key, hrec]
    simp
  · intro t n j m hj ht hretry hnofault
    have hrec : recordedError t n 0 none = some m := by
      have hsplit : n = (j + 1) + (n - (j + 1)) := by omega
      rw [hsplit, recordedError_split]
      have hinner : recordedError t (j + 1) 0 none = some m := by
        rw [recordedError_split t j 1 0 none]
        have d : recordedError t 1 (0 + j) (recordedError t j 0 none) =
            updateErr (t (0 + j)) (recordedError t j 0 none) := rfl
        rw [d]
        have hj0 : t (0 + j) = TransportOutcome.fault m := by simpa using ht
        rw [hj0]
        rfl
      rw [hinner]
      exact recordedError_no_fault t _ _ _ (fun i hi m2 => by
        have e : 0 + (j + 1) + i = j + 1 + i := by omega
        rw [e]
        exact hnofault (j + 1 + i) (by omega) (by omega) m2)
    have hretry0 : ∀ i, i < n → retryable (t (0 + i)) = true := fun i hi => by
      simpa using hretry i hi
    have key := fetchGo_exhaust t n 0 none 0 0 hretry0
    show fetchGo t n 0 none 0 0 = _
    rw [key, hrec]
    simp
  · intro t n k r hk hretry ht hs
    show fetchGo t n 0 none 0 0 = _
    rw [fetchGo_retryable_run t k n 0 none 0 0 (by omega)
      (fun i hi => by simpa using hretry i hi)]
    obtain ⟨d, hd⟩ : ∃ d, n - k = d + 1 := ⟨n - k - 1, by omega⟩
    rw [hd]
    simp [fetchGo, ht, hs]

/-- Witness for C5: the three cases at concrete transports with
`maxRetries = 2` or `3`. -/
theorem c5_retry_policy_instance :
    fetchWithRetry t429 2 = ⟨Except.error "Maximum retries exceeded", 2, 3000⟩ ∧
    fetchWithRetry tMixed 2 = ⟨Except.error "netdown", 2, 3000⟩ ∧
    fetchWithRetry tOk 3 = ⟨Except.ok ⟨200, true, "OK", none⟩, 2, 1000⟩ := by
  refine ⟨?_, ?_, ?_⟩
  · exact c5_retry_policy.1 t429 2 (fun i _ => ⟨_, rfl, rfl⟩)
  · exact c5_retry_policy.2.1 tMixed 2 0 "netdown" (by omega) rfl
      (by decide)
      (fun i h1 h2 m2 => by
        have : i = 1 := by omega
        subst this
        simp [tMixed])
  · exact c5_retry_policy.2.2 tOk 3 1 ⟨200, true, "OK", none⟩ (by omega)
      (by decide) rfl (by decide)

/-- Claim C6: the period-to-start-date mapping sends `ytd` to January 1 of the
current year, `max` to the epoch origin, each of the nine named periods to
now minus its fixed duration constant, and every unrecognized string to the
`1mo` constant (30 days), never failing — in both variants (`getPeriod1Date`
in milliseconds, the history handler's switch in seconds). -/
theorem c6_period_to_date_mapping (nowMs janFirstMs period2 janFirstSec : Int) :
    (getPeriod1Date nowMs janFirstMs "ytd" = janFirstMs ∧
     getPeriod1Date nowMs janFirstMs "max" = 0 ∧
     getPeriod1Date nowMs janFirstMs "1d" = nowMs - 86400000 ∧
     getPeriod1Date nowMs janFirstMs "5d" = nowMs - 5 * 86400000 ∧
     getPeriod1Date nowMs janFirstMs "1mo" = nowMs - 30 * 86400000 ∧
     getPeriod1Date nowMs janFirstMs "3mo" = nowMs - 90 * 86400000 ∧
     getPeriod1Date nowMs janFirstMs "6mo" = nowMs - 180 * 86400000 ∧
     getPeriod1Date nowMs janFirstMs "1y" = nowMs - 365 * 86400000 ∧
     getPeriod1Date nowMs janFirstMs "2y" = nowMs - 2 * 365 * 86400000 ∧
     getPeriod1Date nowMs janFirstMs "5y" = nowMs - 5 * 365 * 86400000 ∧
     getPeriod1Date nowMs janFirstMs "10y" = nowMs - 10 * 365 * 86400000) ∧
    (∀ p, p ∉ validPeriods →
      getPeriod1Date nowMs janFirstMs p = nowMs - 30 * 86400000) ∧
    (histPeriod1 period2 janFirstSec "ytd" = janFirstSec ∧
     histPeriod1 period2 janFirstSec "max" = 0 ∧
     histPeriod1 period2 janFirstSec "1d" = period2 - 86400 ∧
     histPeriod1 period2 janFirstSec "5d" = period2 - 5 * 86400 ∧
     histPeriod1 period2 janFirstSec "1mo" = period2 - 30 * 86400 ∧
     histPeriod1 period2 janFirstSec "3mo" = period2 - 90 * 86400 ∧
     histPeriod1 period2 janFirstSec "6mo" = period2 - 180 * 86400 ∧
     histPeriod1 period2 janFirstSec "1y" = period2 - 365 * 86400 ∧
     histPeriod1 period2 janFirstSec "2y" = period2 - 2 * 365 * 86400 ∧
     histPeriod1 period2 janFirstSec "5y" = period2 - 5 * 365 * 86400 ∧
     histPeriod1 period2 janFirstSec "10y" = period2 - 10 * 365 * 86400) ∧
    (∀ p, p ∉ validPeriods →
      histPeriod1 period2 janFirstSec p = period2 - 30 * 86400) := by
  refine ⟨⟨rfl, rfl, rfl, rfl, rfl, rfl, rfl, rfl, rfl, rfl, rfl⟩, ?_,
    ⟨rfl, rfl, rfl, rfl, rfl, rfl, rfl, rfl, rfl, rfl, rfl⟩, ?_⟩
  · intro p hp
    simp only [validPeriods, List.mem_cons, List.not_mem_nil, or_false] at hp
    push_neg at hp
    obtain ⟨n1, n5, n1mo, n3mo, n6mo, n1y, n2y, n5y, n10y, nytd, nmax⟩ := hp
    simp [getPeriod1Date, periodsRecord, n1, n5, n1mo, n3mo, n6mo, n1y, n2y,
      n5y, n10y, nytd, nmax]
  · intro p hp
    simp only [validPeriods, List.mem_cons, List.not_mem_nil, or_false] at hp
    push_neg at hp
    obtain ⟨n1, n5, n1mo, n3mo, n6mo, n1y, n2y, n5y, n10y, nytd, nmax⟩ := hp
    simp [histPeriod1, n1, n5, n1mo, n3mo, n6mo, n1y, n2y, n5y, n10y, nytd, nmax]

/-- Witness for C6: concrete times and the unrecognized period "bogus". -/
theorem c6_period_to_date_mapping_instance :
    getPeriod1Date 5000000000 1700000000 "ytd" = 1700000000 ∧
    getPeriod1Date 5000000000 1700000000 "bogus" = 5000000000 - 30 * 86400000 ∧
    histPeriod1 1600000000 1500000000 "max" = 0 ∧
    histPeriod1 1600000000 1500000000 "bogus" = 1600000000 - 30 * 86400 := by
  have h := c6_period_to_date_mapping 5000000000 1700000000 1600000000 1500000000
  exact ⟨h.1.1, h.2.1 "bogus" (by decide), h.2.2.1.2.1, h.2.2.2 "bogus" (by decide)⟩

/-- Membership in the sampling loop's output: exactly the indices
`i, i+step, i+2·step, …` below `len` (given enough fuel). -/
lemma sampleIdxGo_mem (len step : Nat) (hstep : 1 ≤ step) :
    ∀ (fuel i : Nat), len ≤ i + fuel → ∀ j,
      (j ∈ sampleIdxGo len step fuel i ↔ ∃ q, j = i + q * step ∧ j < len) := by
  intro fuel
  induction fuel with
  | zero =>
    intro i hfu j
    simp only [sampleIdxGo, List.not_mem_nil, false_iff]
    rintro ⟨q, hj, hlt⟩
    have hle : i ≤ i + q * step := Nat.le_add_right _ _
    omega
  | succ fuel ih =>
    intro i hfu j
    by_cases hi : i < len
    · rw [show sampleIdxGo len step (fuel + 1) i =
        i :: sampleIdxGo len step fuel (i + step) from by simp [sampleIdxGo, hi]]
      rw [List.mem_cons, ih (i + step) (by omega) j]
      constructor
      · rintro (rfl | ⟨q, hj, hlt⟩)
        · exact ⟨0, by omega, hi⟩
        · refine ⟨q + 1, ?_, hlt⟩
          rw [Nat.succ_mul]
          omega
      · rintro ⟨q, hj, hlt⟩
        cases q with
        | zero => left; omega
        | succ q =>
          right
          refine ⟨q, ?_, hlt⟩
          rw [Nat.succ_mul] at hj
          omega
    · rw [show sampleIdxGo len step (fuel + 1) i = [] from by simp [sampleIdxGo, hi]]
      simp only [List.not_mem_nil, false_iff]
      rintro ⟨q, hj, hlt⟩
      have hle : i ≤ i + q * step := Nat.le_add_right _ _
      omega

/-- The printed row indices are exactly the multiples of the step below `len`. -/
lemma sampledIndices_mem (len j : Nat) :
    j ∈ sampledIndices len ↔ ∃ q, j = q * sampleStep len ∧ j < len := by
  have h := sampleIdxGo_mem len (sampleStep len) (le_max_left 1 (len / 10)) len 0
    (by omega) j
  rw [sampledIndices, h]
  constructor
  · rintro ⟨q, hj, hlt⟩
    exact ⟨q, by omega, hlt⟩
  · rintro ⟨q, hj, hlt⟩
    exact ⟨q, by omega, hlt⟩

/-- Claim C9 (amended): (1) the table emits exactly the records at indices
`0, step, 2·step, …` below `N` with `step = max 1 ⌊N/10⌋`; (2) for `N = 23`,
`step = 2` and 12 rows are printed; (3) the trailing price-change line is
present exactly when the close array has an entry (`!== undefined`; a `null`
entry counts) at indices `0` and `N−1`; (4) when both endpoint closes are
known numbers, its values are the absolute and percentage change computed
from those two unsampled endpoints, regardless of which rows were printed. -/
theorem c9_sampling_and_change_line :
    (∀ (len j : Nat), j ∈ sampledIndices len ↔ ∃ q, j = q * sampleStep len ∧ j < len) ∧
    (sampleStep 23 = 2 ∧
      sampledIndices 23 = [0, 2, 4, 6, 8, 10, 12, 14, 16, 18, 20, 22] ∧
      (sampledIndices 23).length = 12) ∧
    (∀ (closes : Option (List (Option Rat))) (len : Nat), 0 < len →
      ((changeNumbers closes len).isSome ↔
        jsIndex closes 0 ≠ none ∧ jsIndex closes (len - 1) ≠ none)) ∧
    (∀ (cs : List (Option Rat)) (a b : Rat) (len : Nat), 0 < len →
      cs.get? 0 = some (some a) → cs.get? (len - 1) = some (some b) →
      changeNumbers (some cs) len = some (b - a, (b - a) / a * 100)) := by
  refine ⟨sampledIndices_mem, ⟨rfl, by decide, by decide⟩, ?_, ?_⟩
  · intro closes len hlen
    simp only [changeNumbers, if_pos hlen]
    cases h0 : jsIndex closes 0 with
    | none => simp
    | some fc =>
      cases h1 : jsIndex closes (len - 1) with
      | none => simp
      | some lc => simp
  · intro cs a b len hlen h0 h1
    simp only [changeNumbers, if_pos hlen]
    have j0 : jsIndex (some cs) 0 = some (some a) := h0
    have j1 : jsIndex (some cs) (len - 1) = some (some b) := h1
    rw [j0, j1]
    rfl

/-- Witness for C9: index membership at `N = 23`, presence of the change line
for a 2-element close array, and its value for closes 1 and 3. -/
theorem c9_sampling_and_change_line_instance :
    ((4 : Nat) ∈ sampledIndices 23 ↔ ∃ q, 4 = q * sampleStep 23 ∧ 4 < 23) ∧
    ((changeNumbers (some [some 1, some 3]) 2).isSome ↔
      jsIndex (some [some 1, some 3]) 0 ≠ none ∧
        jsIndex (some [some 1, some 3]) (2 - 1) ≠ none) ∧
    changeNumbers (some [some 1, some 3]) 2 = some (3 - 1, (3 - 1) / 1 * 100) :=
  ⟨c9_sampling_and_change_line.1 23 4,
    c9_sampling_and_change_line.2.2.1 (some [some 1, some 3]) 2 (by norm_num),
    c9_sampling_and_change_line.2.2.2 [some 1, some 3] 1 3 2 (by norm_num) rfl rfl⟩

/-- Counterexample to C9 as stated: with one timestamp whose close entry is
`null`, the record's close is unknown, yet the change-line check
`firstClose !== undefined && lastClose !== undefined` passes (`null` is not
`undefined`), so the price-change line *is* emitted — the claim says it is
present exactly when both endpoint closes are known. -/
theorem c9_null_close_counterexample :
    Option.join (jsIndex (some ([none] : List (Option Rat))) 0) = none ∧
    changeNumbers (some ([none] : List (Option Rat))) 1 = some (0, 0) ∧
    changeSummary (fun _ => "0.00") (some ([none] : List (Option Rat))) 1 =
      "\nPrice Change: $0.00 (0.00%)" := by
  refine ⟨rfl, ?_, ?_⟩
  · have h : changeNumbers (some ([none] : List (Option Rat))) 1 =
        some ((0 : Rat) - 0, ((0 : Rat) - 0) / 0 * 100) := rfl
    rw [h]
    norm_num
  · rfl

section Handlers

variable {s s1 : RateState} {now janFirstSec : Nat} {t : Nat → TransportOutcome}
  {fmtDate : Nat → String} {fmtFix : Rat → String} {fmtVol : Rat → String}
  {renderQuote : ChartResult → String} {symbol period interval : String}
  {e : String} {r : HttpResponse} {res : ChartResult}

/-- History handler, budget-rejected branch. -/
lemma historyHandler_rejected (h : checkRateLimit now s = (Except.error e, s1)) :
    historyHandler s now janFirstSec t fmtDate fmtFix fmtVol symbol period interval =
      ⟨Except.error e, s1, false⟩ := by
  simp only [historyHandler, h]

/-- History handler, invalid-period branch. -/
lemma historyHandler_invalid_period (h : checkRateLimit now s = (Except.ok (), s1))
    (hp : period ∉ validPeriods) :
    historyHandler s now janFirstSec t fmtDate fmtFix fmtVol symbol period interval =
      ⟨Except.ok ("Error: " ++ invalidPeriodMsg period), s1, false⟩ := by
  simp only [historyHandler, h, if_pos hp]

/-- History handler, invalid-interval branch. -/
lemma historyHandler_invalid_interval (h : checkRateLimit now s = (Except.ok (), s1))
    (hp : period ∈ validPeriods) (hi : interval ∉ validIntervals) :
    historyHandler s now janFirstSec t fmtDate fmtFix fmtVol symbol period interval =
      ⟨Except.ok ("Error: " ++ invalidIntervalMsg interval), s1, false⟩ := by
  simp only [historyHandler, h, if_neg (not_not_intro hp), if_pos hi]

/-- History handler, fetch-exhausted branch. -/
lemma historyHandler_fetch_error (h : checkRateLimit now s = (Except.ok (), s1))
    (hp : period ∈ validPeriods) (hi : interval ∈ validIntervals)
    (hf : (fetchWithRetry t 3).result = Except.error e) :
    historyHandler s now janFirstSec t fmtDate fmtFix fmtVol symbol period interval =
      ⟨Except.ok ("Error: " ++ e), s1, true⟩ := by
  simp only [historyHandler, h, if_neg (not_not_intro hp), if_neg (not_not_intro hi), hf]

/-- History handler, non-OK-status branch. -/
lemma historyHandler_bad_status (h : checkRateLimit now s = (Except.ok (), s1))
    (hp : period ∈ validPeriods) (hi : interval ∈ validIntervals)
    (hf : (fetchWithRetry t 3).result = Except.ok r) (hok : r.ok = false) :
    historyHandler s now janFirstSec t fmtDate fmtFix fmtVol symbol period interval =
      ⟨Except.ok ("Error: " ++ apiErrorMsg r), s1, true⟩ := by
  simp only [historyHandler, h, if_neg (not_not_intro hp), if_neg (not_not_intro hi), hf,
    if_pos hok]

/-- History handler, absent-result branch. -/
lemma historyHandler_no_data (h : checkRateLimit now s = (Except.ok (), s1))
    (hp : period ∈ validPeriods) (hi : interval ∈ validIntervals)
    (hf : (fetchWithRetry t 3).result = Except.ok r) (hok : r.ok = true)
    (hpay : r.payload = none) :
    historyHandler s now janFirstSec t fmtDate fmtFix fmtVol symbol period interval =
      ⟨Except.ok ("No historical data found for symbol: " ++ symbol), s1, true⟩ := by
  simp only [historyHandler, h, if_neg (not_not_intro hp), if_neg (not_not_intro hi), hf,
    if_neg ((by simp [hok] : ¬ (r.ok = false))), hpay]

/-- History handler, table branch. -/
lemma historyHandler_table (h : checkRateLimit now s = (Except.ok (), s1))
    (hp : period ∈ validPeriods) (hi : interval ∈ validIntervals)
    (hf : (fetchWithRetry t 3).result = Except.ok r) (hok : r.ok = true)
    (hpay : r.payload = some res) :
    historyHandler s now janFirstSec t fmtDate fmtFix fmtVol symbol period interval =
      ⟨Except.ok (historyOutput fmtDate fmtFix fmtVol symbol period interval res),
        s1, true⟩ := by
  simp only [historyHandler, h, if_neg (not_not_intro hp), if_neg (not_not_intro hi), hf,
    if_neg ((by simp [hok] : ¬ (r.ok = false))), hpay]

/-- Quote handler, budget-rejected branch. -/
lemma quoteHandler_rejected (h : checkRateLimit now s = (Except.error e, s1)) :
    quoteHandler s now t renderQuote symbol = ⟨Except.error e, s1, false⟩ := by
  simp only [quoteHandler, h]

/-- Quote handler, fetch-exhausted branch. -/
lemma quoteHandler_fetch_error (h : checkRateLimit now s = (Except.ok (), s1))
    (hf : (fetchWithRetry t 3).result = Except.error e) :
    quoteHandler s now t renderQuote symbol = ⟨Except.ok ("Error: " ++ e), s1, true⟩ := by
  simp only [quoteHandler, h, hf]

/-- Quote handler, non-OK-status branch. -/
lemma quoteHandler_bad_status (h : checkRateLimit now s = (Except.ok (), s1))
    (hf : (fetchWithRetry t 3).result = Except.ok r) (hok : r.ok = false) :
    quoteHandler s now t renderQuote symbol =
      ⟨Except.ok ("Error: " ++ apiErrorMsg r), s1, true⟩ := by
  simp only [quoteHandler, h, hf, if_pos hok]

/-- Quote handler, absent-result branch. -/
lemma quoteHandler_no_data (h : checkRateLimit now s = (Except.ok (), s1))
    (hf : (fetchWithRetry t 3).result = Except.ok r) (hok : r.ok = true)
    (hpay : r.payload = none) :
    quoteHandler s now t renderQuote symbol =
      ⟨Except.ok ("No data found for symbol: " ++ symbol), s1, true⟩ := by
  simp only [quoteHandler, h, hf, if_neg ((by simp [hok] : ¬ (r.ok = false))), hpay]

/-- Quote handler, success branch. -/
lemma quoteHandler_success (h : checkRateLimit now s = (Except.ok (), s1))
    (hf : (fetchWithRetry t 3).result = Except.ok r) (hok : r.ok = true)
    (hpay : r.payload = some res) :
    quoteHandler s now t renderQuote symbol =
      ⟨Except.ok (renderQuote res), s1, true⟩ := by
  simp only [quoteHandler, h, hf, if_neg ((by simp [hok] : ¬ (r.ok = false))), hpay]

/-- The history handler always returns a normal reply once the budget check
accepted. -/
lemma historyHandler_ok_shape (h : checkRateLimit now s = (Except.ok (), s1)) :
    ∃ a, (historyHandler s now janFirstSec t fmtDate fmtFix fmtVol symbol period
      interval).response = Except.ok a := by
  by_cases hp : period ∈ validPeriods
  · by_cases hi : interval ∈ validIntervals
    · rcases hf : (fetchWithRetry t 3).result with e | r
      · exact ⟨_, by rw [historyHandler_fetch_error h hp hi hf]⟩
      · rcases hok : r.ok with _ | _
        · exact ⟨_, by rw [historyHandler_bad_status h hp hi hf hok]⟩
        · rcases hpay : r.payload with _ | res
          · exact ⟨_, by rw [historyHandler_no_data h hp hi hf hok hpay]⟩
          · exact ⟨_, by rw [historyHandler_table h hp hi hf hok hpay]⟩
    · exact ⟨_, by rw [historyHandler_invalid_interval h hp hi]⟩
  · exact ⟨_, by rw [historyHandler_invalid_period h hp]⟩

/-- The quote handler always returns a normal reply once the budget check
accepted. -/
lemma quoteHandler_ok_shape (h : checkRateLimit now s = (Except.ok (), s1)) :
    ∃ a, (quoteHandler s now t renderQuote symbol).response = Except.ok a := by
  rcases hf : (fetchWithRetry t 3).result with e | r
  · exact ⟨_, by rw [quoteHandler_fetch_error h hf]⟩
  · rcases hok : r.ok with _ | _
    · exact ⟨_, by rw [quoteHandler_bad_status h hf hok]⟩
    · rcases hpay : r.payload with _ | res
      · exact ⟨_, by rw [quoteHandler_no_data h hf hok hpay]⟩
      · exact ⟨_, by rw [quoteHandler_success h hf hok hpay]⟩

/-- The handlers' final budget state is whatever `checkRateLimit` left behind,
whichever way the invocation went. -/
lemma handlers_state_eq :
    (historyHandler s now janFirstSec t fmtDate fmtFix fmtVol symbol period
      interval).state = (checkRateLimit now s).2 ∧
    (quoteHandler s now t renderQuote symbol).state = (checkRateLimit now s).2 := by
  rcases h : checkRateLimit now s with ⟨c, s1⟩
  rcases c with e | u
  · rw [historyHandler_rejected h, quoteHandler_rejected h]
    exact ⟨rfl, rfl⟩
  · cases u
    constructor
    · by_cases hp : period ∈ validPeriods
      · by_cases hi : interval ∈ validIntervals
        · rcases hf : (fetchWithRetry t 3).result with e | r
          · rw [historyHandler_fetch_error h hp hi hf]
          · rcases hok : r.ok with _ | _
            · rw [historyHandler_bad_status h hp hi hf hok]
            · rcases hpay : r.payload with _ | res
              · rw [historyHandler_no_data h hp hi hf hok hpay]
              · rw [historyHandler_table h hp hi hf hok hpay]
        · rw [historyHandler_invalid_interval h hp hi]
      · rw [historyHandler_invalid_period h hp]
    · rcases hf : (fetchWithRetry t 3).result with e | r
      · rw [quoteHandler_fetch_error h hf]
      · rcases hok : r.ok with _ | _
        · rw [quoteHandler_bad_status h hf hok]
        · rcases hpay : r.payload with _ | res
          · rw [quoteHandler_no_data h hf hok hpay]
          · rw [quoteHandler_success h hf hok hpay]

end Handlers

/-- An accepted within-window call increments exactly both counters. -/
lemma checkRateLimit_increments (now : Nat) (s : RateState)
    (hm : now - s.lastMinuteReset ≤ 60000) (hd : now - s.lastDayReset ≤ 86400000)
    (hok : (checkRateLimit now s).1 = Except.ok ()) :
    (checkRateLimit now s).2 =
      { s with minute := s.minute + 1, day := s.day + 1 } := by
  by_cases hc : RATE_LIMIT_perMinute ≤ s.minute ∨ RATE_LIMIT_perDay ≤ s.day
  · rw [checkRateLimit_reject now s hm hd hc] at hok
    simp at hok
  · push_neg at hc
    rw [checkRateLimit_accept now s hm hd hc.1 hc.2]

/-- Claim C1 (amended): when the budget check rejects, the RateLimited error
propagates to the caller as an exception — the budget check runs before the
`try` block — while once the budget check accepted, every invocation returns
a normally-shaped text reply, and each failure arising inside the `try`
(invalid period, invalid interval, exhausted retries, non-OK status) yields
text beginning with `Error:`. -/
theorem c1_error_text_policy (s : RateState) (now janFirstSec : Nat)
    (t : Nat → TransportOutcome) (fmtDate : Nat → String) (fmtFix : Rat → String)
    (fmtVol : Rat → String) (renderQuote : ChartResult → String)
    (symbol period interval : String) :
    (∀ e s1, checkRateLimit now s = (Except.error e, s1) →
      (historyHandler s now janFirstSec t fmtDate fmtFix fmtVol symbol period
        interval).response = Except.error e ∧
      (quoteHandler s now t renderQuote symbol).response = Except.error e) ∧
    (∀ s1, checkRateLimit now s = (Except.ok (), s1) →
      (∃ a, (historyHandler s now janFirstSec t fmtDate fmtFix fmtVol symbol period
        interval).response = Except.ok a) ∧
      (∃ b, (quoteHandler s now t renderQuote symbol).response = Except.ok b) ∧
      (period ∉ validPeriods →
        (historyHandler s now janFirstSec t fmtDate fmtFix fmtVol symbol period
          interval).response = Except.ok ("Error: " ++ invalidPeriodMsg period)) ∧
      (period ∈ validPeriods → interval ∉ validIntervals →
        (historyHandler s now janFirstSec t fmtDate fmtFix fmtVol symbol period
          interval).response = Except.ok ("Error: " ++ invalidIntervalMsg interval)) ∧
      (∀ e, (fetchWithRetry t 3).result = Except.error e →
        (quoteHandler s now t renderQuote symbol).response =
          Except.ok ("Error: " ++ e) ∧
        (period ∈ validPeriods → interval ∈ validIntervals →
          (historyHandler s now janFirstSec t fmtDate fmtFix fmtVol symbol period
            interval).response = Except.ok ("Error: " ++ e))) ∧
      (∀ r, (fetchWithRetry t 3).result = Except.ok r → r.ok = false →
        (quoteHandler s now t renderQuote symbol).response =
          Except.ok ("Error: " ++ apiErrorMsg r) ∧
        (period ∈ validPeriods → interval ∈ validIntervals →
          (historyHandler s now janFirstSec t fmtDate fmtFix fmtVol symbol period
            interval).response = Except.ok ("Error: " ++ apiErrorMsg r)))) := by
  constructor
  · intro e s1 h
    rw [historyHandler_rejected h, quoteHandler_rejected h]
    exact ⟨rfl, rfl⟩
  · intro s1 h
    refine ⟨historyHandler_ok_shape h, quoteHandler_ok_shape h, ?_, ?_, ?_, ?_⟩
    · intro hp
      rw [historyHandler_invalid_period h hp]
    · intro hp hi
      rw [historyHandler_invalid_interval h hp hi]
    · intro e hf
      refine ⟨by rw [quoteHandler_fetch_error h hf], ?_⟩
      intro hp hi
      rw [historyHandler_fetch_error h hp hi hf]
    · intro r hf hok
      refine ⟨by rw [quoteHandler_bad_status h hf hok], ?_⟩
      intro hp hi
      rw [historyHandler_bad_status h hp hi hf hok]

/-- Witness for C1: a rejected call propagates the exception; inside-try
failures come back as `Error:` text. -/
theorem c1_error_text_policy_instance :
    (historyHandler ⟨20, 20, 0, 0⟩ 0 0 tFetch200 (fun _ => "d") (fun _ => "x")
      (fun _ => "v") "AAPL" "1mo" "1d").response = Except.error rateLimitMsg ∧
    (quoteHandler ⟨20, 20, 0, 0⟩ 0 tFetch200 (fun _ => "q") "AAPL").response =
      Except.error rateLimitMsg ∧
    (historyHandler ⟨0, 0, 0, 0⟩ 0 0 tFetch200 (fun _ => "d") (fun _ => "x")
      (fun _ => "v") "AAPL" "bogus" "1d").response =
      Except.ok ("Error: " ++ invalidPeriodMsg "bogus") ∧
    (quoteHandler ⟨0, 0, 0, 0⟩ 0 tFault (fun _ => "q") "AAPL").response =
      Except.ok ("Error: " ++ "boom") := by
  have h1 := (c1_error_text_policy ⟨20, 20, 0, 0⟩ 0 0 tFetch200 (fun _ => "d")
    (fun _ => "x") (fun _ => "v") (fun _ => "q") "AAPL" "1mo" "1d").1 rateLimitMsg
    ⟨20, 20, 0, 0⟩ rfl
  have h2 := (c1_error_text_policy ⟨0, 0, 0, 0⟩ 0 0 tFetch200 (fun _ => "d")
    (fun _ => "x") (fun _ => "v") (fun _ => "q") "AAPL" "bogus" "1d").2 ⟨1, 1, 0, 0⟩ rfl
  have h3 := (c1_error_text_policy ⟨0, 0, 0, 0⟩ 0 0 tFault (fun _ => "d")
    (fun _ => "x") (fun _ => "v") (fun _ => "q") "AAPL" "1mo" "1d").2 ⟨1, 1, 0, 0⟩ rfl
  exact ⟨h1.1, h1.2, h2.2.2.1 (by decide), (h3.2.2.2.2.1 "boom" rfl).1⟩

/-- Counterexample to C1 as stated: with an exhausted budget, the rate-limit
failure is *not* converted into an `Error:`-prefixed text reply — the handler
result is the propagated exception (and no fetch happens). -/
theorem c1_rate_limited_exception_counterexample :
    (historyHandler ⟨20, 20, 0, 0⟩ 0 0 tFetch200 (fun _ => "d") (fun _ => "x")
      (fun _ => "v") "AAPL" "1mo" "1d").response = Except.error rateLimitMsg ∧
    (historyHandler ⟨20, 20, 0, 0⟩ 0 0 tFetch200 (fun _ => "d") (fun _ => "x")
      (fun _ => "v") "AAPL" "1mo" "1d").fetched = false := ⟨rfl, rfl⟩

/-- Claim C7: for a period outside the valid list the history operation never
reaches the network fetch, and (once the budget check accepted) replies with
the invalid-period message, which enumerates the valid values. -/
theorem c7_invalid_period_validation (s : RateState) (now janFirstSec : Nat)
    (t : Nat → TransportOutcome) (fmtDate : Nat → String) (fmtFix : Rat → String)
    (fmtVol : Rat → String) (symbol period interval : String)
    (hp : period ∉ validPeriods) :
    (historyHandler s now janFirstSec t fmtDate fmtFix fmtVol symbol period
      interval).fetched = false ∧
    (∀ s1, checkRateLimit now s = (Except.ok (), s1) →
      (historyHandler s now janFirstSec t fmtDate fmtFix fmtVol symbol period
        interval).response = Except.ok ("Error: " ++ invalidPeriodMsg period)) := by
  constructor
  · rcases h : checkRateLimit now s with ⟨c, s1⟩
    rcases c with e | u
    · rw [historyHandler_rejected h]
    · cases u
      rw [historyHandler_invalid_period h hp]
  · intro s1 h
    rw [historyHandler_invalid_period h hp]

/-- Witness for C7 at the period "nope". -/
theorem c7_invalid_period_validation_instance :
    (historyHandler ⟨0, 0, 0, 0⟩ 0 0 tFetch200 (fun _ => "d") (fun _ => "x")
      (fun _ => "v") "AAPL" "nope" "1d").fetched = false ∧
    (historyHandler ⟨0, 0, 0, 0⟩ 0 0 tFetch200 (fun _ => "d") (fun _ => "x")
      (fun _ => "v") "AAPL" "nope" "1d").response =
      Except.ok ("Error: " ++ invalidPeriodMsg "nope") := by
  have h := c7_invalid_period_validation ⟨0, 0, 0, 0⟩ 0 0 tFetch200 (fun _ => "d")
    (fun _ => "x") (fun _ => "v") "AAPL" "nope" "1d" (by decide)
  exact ⟨h.1, h.2 ⟨1, 1, 0, 0⟩ rfl⟩

/-- Claim C8: both handlers run the budget check before anything else: their
final budget state is exactly what `checkRateLimit` left (a rejection wins
over any later failure, with no fetch), and an accepted within-window call
increments both counters by exactly 1 — for every period/interval string and
every transport behaviour, i.e. also when validation or the fetch fails. -/
theorem c8_budget_check_precedes_all (s : RateState) (now janFirstSec : Nat)
    (t : Nat → TransportOutcome) (fmtDate : Nat → String) (fmtFix : Rat → String)
    (fmtVol : Rat → String) (renderQuote : ChartResult → String)
    (symbol period interval : String) :
    (historyHandler s now janFirstSec t fmtDate fmtFix fmtVol symbol period
      interval).state = (checkRateLimit now s).2 ∧
    (quoteHandler s now t renderQuote symbol).state = (checkRateLimit now s).2 ∧
    (∀ e s1, checkRateLimit now s = (Except.error e, s1) →
      (historyHandler s now janFirstSec t fmtDate fmtFix fmtVol symbol period
        interval).response = Except.error e ∧
      (historyHandler s now janFirstSec t fmtDate fmtFix fmtVol symbol period
        interval).fetched = false) ∧
    ((checkRateLimit now s).1 = Except.ok () →
      now - s.lastMinuteReset ≤ 60000 → now - s.lastDayReset ≤ 86400000 →
      (historyHandler s now janFirstSec t fmtDate fmtFix fmtVol symbol period
        interval).state.minute = s.minute + 1 ∧
      (historyHandler s now janFirstSec t fmtDate fmtFix fmtVol symbol period
        interval).state.day = s.day + 1 ∧
      (quoteHandler s now t renderQuote symbol).state.minute = s.minute + 1 ∧
      (quoteHandler s now t renderQuote symbol).state.day = s.day + 1) := by
  obtain ⟨hh, hq⟩ := @handlers_state_eq s now janFirstSec t fmtDate fmtFix fmtVol
    renderQuote symbol period interval
  refine ⟨hh, hq, ?_, ?_⟩
  · intro e s1 h
    rw [historyHandler_rejected h]
    exact ⟨rfl, rfl⟩
  · intro hok hm hd
    have hinc := checkRateLimit_increments now s hm hd hok
    rw [hh, hq, hinc]
    exact ⟨rfl, rfl, rfl, rfl⟩

/-- Witness for C8: an accepted call with an invalid period still increments
both counters (3→4 and 7→8). -/
theorem c8_budget_check_precedes_all_instance :
    (historyHandler ⟨3, 7, 0, 0⟩ 5 0 tFetch200 (fun _ => "d") (fun _ => "x")
      (fun _ => "v") "AAPL" "nope" "1d").state.minute = 4 ∧
    (historyHandler ⟨3, 7, 0, 0⟩ 5 0 tFetch200 (fun _ => "d") (fun _ => "x")
      (fun _ => "v") "AAPL" "nope" "1d").state.day = 8 ∧
    (quoteHandler ⟨3, 7, 0, 0⟩ 5 tFetch200 (fun _ => "q") "AAPL").state.minute = 4 ∧
    (quoteHandler ⟨3, 7, 0, 0⟩ 5 tFetch200 (fun _ => "q") "AAPL").state.day = 8 := by
  have h := (c8_budget_check_precedes_all ⟨3, 7, 0, 0⟩ 5 0 tFetch200 (fun _ => "d")
    (fun _ => "x") (fun _ => "v") (fun _ => "q") "AAPL" "nope" "1d").2.2.2 rfl
    (by norm_num) (by norm_num)
  exact ⟨h.1, h.2.1, h.2.2.1, h.2.2.2⟩

/-- Claim C10 (amended): the no-data message is produced exactly when the
chart result object is absent; a present result is rendered as the table
output (which starts with the table header even for zero timestamps); and the
per-index extraction yields exactly one record per timestamp, in timestamp
order. -/
theorem c10_empty_series_and_normalization (s : RateState) (now janFirstSec : Nat)
    (t : Nat → TransportOutcome) (fmtDate : Nat → String) (fmtFix : Rat → String)
    (fmtVol : Rat → String) (symbol period interval : String) (s1 : RateState)
    (hchk : checkRateLimit now s = (Except.ok (), s1))
    (hp : period ∈ validPeriods) (hi : interval ∈ validIntervals)
    (r : HttpResponse) (hf : (fetchWithRetry t 3).result = Except.ok r)
    (hok : r.ok = true) :
    (r.payload = none →
      (historyHandler s now janFirstSec t fmtDate fmtFix fmtVol symbol period
        interval).response =
        Except.ok ("No historical data found for symbol: " ++ symbol)) ∧
    (∀ res, r.payload = some res →
      (historyHandler s now janFirstSec t fmtDate fmtFix fmtVol symbol period
        interval).response =
        Except.ok (historyOutput fmtDate fmtFix fmtVol symbol period interval res) ∧
      ∃ rest, historyOutput fmtDate fmtFix fmtVol symbol period interval res =
        "Historical data for " ++ rest) ∧
    (∀ res : ChartResult,
      (normalizeRecords res).length = (res.timestamp.getD []).length ∧
      ∀ i, i < (res.timestamp.getD []).length →
        (normalizeRecords res).get? i = some (mkRecord res i) ∧
        (mkRecord res i).timestamp = (res.timestamp.getD []).getD i 0) := by
  refine ⟨?_, ?_, ?_⟩
  · intro hpay
    rw [historyHandler_no_data hchk hp hi hf hok hpay]
  · intro res hpay
    rw [historyHandler_table hchk hp hi hf hok hpay]
    exact ⟨rfl, ⟨_, rfl⟩⟩
  · intro res
    refine ⟨by simp [normalizeRecords], ?_⟩
    intro i hilt
    constructor
    · rw [normalizeRecords, List.get?_map, List.get?_range hilt]
      rfl
    · rfl

/-- Witness for C10: the two-point payload renders as the table and yields two
records. -/
theorem c10_empty_series_and_normalization_instance :
    (historyHandler ⟨0, 0, 0, 0⟩ 0 0 tFetchSample (fun _ => "d") (fun _ => "x")
      (fun _ => "v") "AAPL" "1mo" "1d").response =
      Except.ok (historyOutput (fun _ => "d") (fun _ => "x") (fun _ => "v")
        "AAPL" "1mo" "1d" samplePayload) ∧
    (normalizeRecords samplePayload).length = 2 ∧
    (normalizeRecords samplePayload).get? 1 = some (mkRecord samplePayload 1) := by
  have h := c10_empty_series_and_normalization ⟨0, 0, 0, 0⟩ 0 0 tFetchSample
    (fun _ => "d") (fun _ => "x") (fun _ => "v") "AAPL" "1mo" "1d" ⟨1, 1, 0, 0⟩ rfl
    (by decide) (by decide) ⟨200, true, "OK", some samplePayload⟩ rfl rfl
  exact ⟨(h.2.1 samplePayload rfl).1, (h.2.2 samplePayload).1,
    ((h.2.2 samplePayload).2 1 (by decide)).1⟩

/-- Counterexample to C10 as stated: a *present* chart result with zero
timestamps does not produce the no-data message — the handler renders the
table output (header lines, no data rows). -/
theorem c10_empty_series_counterexample :
    (historyHandler ⟨0, 0, 0, 0⟩ 0 0 tFetch200 (fun _ => "d") (fun _ => "x")
      (fun _ => "v") "AAPL" "1mo" "1d").response =
      Except.ok ("Historical data for AAPL (1mo, 1d intervals)\nCurrency: USD\nDate | Open | High | Low | Close | Volume\n-----------|----------|----------|----------|----------|------------\n") ∧
    (emptyTsPayload.timestamp.getD []).length = 0 ∧
    "Historical data for AAPL (1mo, 1d intervals)\nCurrency: USD\nDate | Open | High | Low | Close | Volume\n-----------|----------|----------|----------|----------|------------\n"
      ≠ "No historical data found for symbol: AAPL" := by
  refine ⟨?_, rfl, by decide⟩
  rw [historyHandler_table (rfl : checkRateLimit 0 ⟨0, 0, 0, 0⟩ = (Except.ok (), ⟨1, 1, 0, 0⟩))
    (by decide) (by decide)
    (rfl : (fetchWithRetry tFetch200 3).result =
      Except.ok ⟨200, true, "OK", some emptyTsPayload⟩) rfl rfl]
  rfl

